import Mathlib

/-!
Shallow embedding of the LeapMIDIX delivery pipeline
(src/LeapMIDIX/Device.cpp and src/LeapMIDIX/main.cpp).

Time values are exact: the source computes the elapsed time of a queued
message as a `double` in milliseconds
(`(Δsec)*1000.0 + (Δusec)/1000.0`, Device.cpp lines 188-189); we represent
the same quantity exactly, both as a rational number of milliseconds
(`elapsedMs`) and as an integer number of microseconds (`elapsedUs`), and
prove the two forms order-equivalent against the 2 ms bound.
-/

namespace LeapMIDIX

/-- POSIX `struct timeval` as used by `gettimeofday`: seconds and
microseconds, both integral. -/
structure Timeval where
  tv_sec : Int
  tv_usec : Int
deriving Repr, DecidableEq, Inhabited

/-- POSIX `struct timespec` as passed to `pthread_cond_timedwait`. -/
structure Timespec where
  tv_sec : Int
  tv_nsec : Int
deriving Repr, DecidableEq, Inhabited

/-- Exact value of the `double` elapsed time (in milliseconds) computed at
Device.cpp lines 188-189: `(now.tv_sec - ts.tv_sec)*1000.0 +
(now.tv_usec - ts.tv_usec)/1000.0`. -/
def elapsedMs (now ts : Timeval) : ℚ :=
  ((now.tv_sec - ts.tv_sec : ℤ) : ℚ) * 1000 + ((now.tv_usec - ts.tv_usec : ℤ) : ℚ) / 1000

/-- The same elapsed time, scaled to an integer number of microseconds
(1 ms = 1000 µs); used in the executable model so that the staleness test
is integer arithmetic. -/
def elapsedUs (now ts : Timeval) : Int :=
  (now.tv_sec - ts.tv_sec) * 1000000 + (now.tv_usec - ts.tv_usec)

/-- A MIDI byte; the source stores bytes in `unsigned char`, so assignments
truncate modulo 256 where that matters. -/
abbrev Byte := Nat

/-- CoreMIDI `OSStatus` (a 32-bit signed status; 0 is success). -/
abbrev OSStatus := Int

/-- Buffer size for midi packet messages, Device.cpp line 19:
`packetListSize = 512` bytes. -/
def packetListSize : Nat := 512

/-- Bytes occupied by one `MIDIPacket` in the packed packet-list layout the
source allocates against: an 8-byte `MIDITimeStamp`, a 2-byte length field,
and the data bytes. -/
def midiPacketBytes (data : List Byte) : Nat := 10 + data.length

/-- Bytes occupied by a `MIDIPacketList`: the 4-byte `numPackets` field
followed by the packets. -/
def midiPacketListBytes (pkts : List (List Byte)) : Nat :=
  4 + (pkts.map midiPacketBytes).sum

/-- CoreMIDI `MIDIPacketListAdd`: appends a packet to the list, returning
`none` (a NULL `MIDIPacket*`) when the list's byte capacity `listSize`
would be exceeded. A packet list is modelled by its sequence of packets,
each packet by its data bytes. -/
def MIDIPacketListAdd (pkts : List (List Byte)) (listSize : Nat)
    (data : List Byte) : Option (List (List Byte)) :=
  if midiPacketListBytes (pkts ++ [data]) ≤ listSize then
    some (pkts ++ [data])
  else
    none

/-- The observable state of a `Device` for the send path: the contents of
the member packet buffer `midiPacketList` (empty right after
`MIDIPacketListInit`), and the ordered log of packet lists submitted to the
driver through `MIDIReceived`. -/
structure DeviceState where
  midiPacketList : List (List Byte)
  sent : List (List (List Byte))
deriving Repr, DecidableEq, Inhabited

/-- Model of `Device::initPacketList` (Device.cpp lines 37-45): frees any existing
member buffer, reallocates `packetListSize` bytes and runs
`MIDIPacketListInit`, leaving the member buffer empty. -/
def initPacketList (s : DeviceState) : DeviceState :=
  DeviceState.mk [] s.sent

/-- Model of `Device::send` (Device.cpp lines 78-88): submits `pktlist` to the
driver via `MIDIReceived` (whose status is supplied by the `driverStatus`
oracle), then unconditionally calls `initPacketList` on the member buffer,
and returns the driver's status. -/
def send (driverStatus : OSStatus) (s : DeviceState)
    (pktlist : List (List Byte)) : OSStatus × DeviceState :=
  (driverStatus, initPacketList (DeviceState.mk s.midiPacketList (s.sent ++ [pktlist])))

/-- Outcome of `Device::writeControl`: the two `exit`/abort paths (a failed
`assert`, and the buffer-overrun `exit(1)` at lines 114-117), or normal
completion with the new device state. -/
inductive WriteControlResult where
  | assertionFailure
  | fatalOverrun
  | ok (s : DeviceState)
deriving Repr, DecidableEq

/-- Model of `Device::writeControl` (Device.cpp lines 92-124): asserts
`control < 120` and `value <= 127`, builds the 3-byte payload
`{0xB0 + 0, 0x00 + control, value}` (each stored into an `unsigned char`,
hence mod 256), appends it to the member packet list (fatal on overrun),
and calls `this->send(midiPacketList)`, discarding the returned status. -/
def writeControl (driverStatus : OSStatus) (s : DeviceState)
    (control value : Nat) : WriteControlResult :=
  if control < 120 then
    if value ≤ 127 then
      let midiChannel : Byte := (0xB0 + 0) % 256
      let midiControl : Byte := (0x00 + control) % 256
      let packetOut : List Byte := [midiChannel, midiControl, value % 256]
      match MIDIPacketListAdd s.midiPacketList packetListSize packetOut with
      | none => WriteControlResult.fatalOverrun
      | some pkts =>
        WriteControlResult.ok (send driverStatus (DeviceState.mk pkts s.sent) pkts).2
    else WriteControlResult.assertionFailure
  else WriteControlResult.assertionFailure

/-- Modelled from the spec: the queued message type `midi_message` is
declared in the repository's Device.h, which is not among the given source
files; its fields are reconstructed from their uses in Device.cpp
(lines 162, 188-189, 196, 202-206) and the spec's ControlUpdate entity:
a control index, a control value and the `gettimeofday` enqueue timestamp.
The index/value carrier types (`LeapMIDI::midi_control_index`,
`LeapMIDI::midi_control_value`) are likewise missing; per the spec's
ranges `[0,120)` and `[0,128)` they are modelled as natural numbers. -/
structure midi_message where
  control_index : Nat
  control_value : Nat
  timestamp : Timeval
deriving Repr, DecidableEq, Inhabited

/-- Observable per-message events of the worker's forwarding loop
`Device::writeControlMessages`: the latency warning printed at line 191
(carrying the elapsed time, here in µs), and the forwarding of a message
into `writeControl` at line 196. -/
inductive WorkerEvent where
  | latencyWarning (elapsedUs : Int)
  | forwarded (control value : Nat)
deriving Repr, DecidableEq, Inhabited

/-- Model of `Device::writeControlMessages` (Device.cpp lines 179-198): pops each
queued message in order; reads the clock (`gettimeofday`, supplied by the
`clock` oracle indexed by the message's position); drops the message with
a latency warning when the elapsed time exceeds 2 ms; otherwise forwards
it through `writeControl` (whose driver status is supplied by the `sts`
oracle). `none` models the process aborting inside `writeControl`
(failed assert or fatal overrun). Returns the final device state and the
ordered list of observable events. -/
def writeControlMessages (clock : Nat → Timeval) (sts : Nat → OSStatus) :
    Nat → DeviceState → List midi_message →
    Option (DeviceState × List WorkerEvent)
  | _, s, [] => some (s, [])
  | i, s, msg :: rest =>
    let e := elapsedUs (clock i) msg.timestamp
    if e > 2000 then
      match writeControlMessages clock sts (i + 1) s rest with
      | none => none
      | some (s', evs) => some (s', WorkerEvent.latencyWarning e :: evs)
    else
      match writeControl (sts i) s msg.control_index msg.control_value with
      | WriteControlResult.assertionFailure => none
      | WriteControlResult.fatalOverrun => none
      | WriteControlResult.ok s' =>
        match writeControlMessages clock sts (i + 1) s' rest with
        | none => none
        | some (s'', evs) =>
          some (s'', WorkerEvent.forwarded msg.control_index msg.control_value :: evs)

/-- The queue-drain loop of `Device::messageSendingThreadEntry`
(Device.cpp lines 160-165): repeatedly moves the front of the shared
queue onto the back of the thread-local copy until the shared queue is
empty; returns the final (queue, queueCopy) pair. -/
def drainLoop : List midi_message → List midi_message →
    List midi_message × List midi_message
  | [], queueCopy => ([], queueCopy)
  | msg :: rest, queueCopy => drainLoop rest (queueCopy ++ [msg])

/-- Iterated `writeControl` calls, one per `(control, value)` pair, as the
worker performs them for a batch of fresh messages; `none` models a fatal
abort (failed assert or buffer overrun) at some call. -/
def writeControlSeq (sts : Nat → OSStatus) :
    Nat → DeviceState → List (Nat × Nat) → Option DeviceState
  | _, s, [] => some s
  | i, s, (c, v) :: rest =>
    match writeControl (sts i) s c v with
    | WriteControlResult.ok s' => writeControlSeq sts (i + 1) s' rest
    | _ => none

/-- Model of `sendNote` from main.cpp (lines 37-58), parametrized by the value of
`rand()`: builds a caller-local 32-byte packet list containing a note-on
and a note-off packet and passes it to `device->send`. On `MIDIPacketListAdd`
returning NULL it only logs and returns, leaving the device untouched. -/
def sendNote (driverStatus : OSStatus) (randVal : Nat)
    (s : DeviceState) : DeviceState :=
  let note : Byte := randVal % 40 + 25
  let noteOn : List Byte := [0x90, note, 64]
  let noteOff : List Byte := [0x90, note, 0]
  match MIDIPacketListAdd [] 32 noteOn with
  | none => s
  | some l1 =>
    match MIDIPacketListAdd l1 32 noteOff with
    | none => s
    | some l2 => (send driverStatus s l2).2

/-- Synchronization-relevant primitive calls appearing in Device.cpp. -/
inductive SyncAction where
  | mutexLock
  | mutexUnlock
  | condTimedWait
  | condSignal
  | testCancel
  | readClock
  | drainQueue
  | pushQueue
  | writeMessages
deriving Repr, DecidableEq

/-- The sequence of synchronization-relevant calls in one iteration of
`Device::messageSendingThreadEntry` (Device.cpp lines 131-174), along the
path where the timed wait returns 0 (signaled) and the queue is non-empty:
`pthread_testcancel` (line 132); `gettimeofday` (line 138);
`pthread_cond_timedwait` (line 141); the drain loop (lines 160-165);
`pthread_mutex_unlock` (line 168); `writeControlMessages` (line 173).
No `pthread_mutex_lock` call occurs anywhere in the function. -/
def workerIterationActions : List SyncAction :=
  [SyncAction.testCancel, SyncAction.readClock, SyncAction.condTimedWait,
   SyncAction.drainQueue, SyncAction.mutexUnlock, SyncAction.writeMessages]

/-- The sequence of synchronization-relevant calls in
`Device::addControlMessage` (Device.cpp lines 200-209): lock the queue
mutex, push the timestamped message, unlock, signal the condition
variable. -/
def addControlMessageActions : List SyncAction :=
  [SyncAction.mutexLock, SyncAction.pushQueue, SyncAction.mutexUnlock,
   SyncAction.condSignal]

/-- The steps of `Device::~Device` (Device.cpp lines 47-62). -/
inductive DtorStep where
  | disposeEndpoint
  | disposeClient
  | freePacketList
  | cancelWorker
  | joinWorker
  | destroyMutex
  | destroyCond
deriving Repr, DecidableEq

/-- The destructor's step sequence in source order, for a device whose
endpoint, client, packet list and worker thread are all live (the state
after a successful `init()`): dispose the endpoint (line 49), dispose the
client (line 51), free the packet buffer (line 53), `pthread_cancel` the
worker (line 56), destroy the mutex (line 58) and the condition variable
(line 59). No `pthread_join` (or any other wait for the worker) appears. -/
def destructorSteps : List DtorStep :=
  [DtorStep.disposeEndpoint, DtorStep.disposeClient, DtorStep.freePacketList,
   DtorStep.cancelWorker, DtorStep.destroyMutex, DtorStep.destroyCond]

/-- The absolute deadline handed to `pthread_cond_timedwait`
(Device.cpp lines 138-140): `ts.tv_sec = tv.tv_sec + 2; ts.tv_nsec = 0`
where `tv` is the `gettimeofday` result on entering the wait. -/
def timedWaitDeadline (tv : Timeval) : Timespec :=
  Timespec.mk (tv.tv_sec + 2) 0

/-- A `timeval` as an absolute number of nanoseconds. -/
def timevalNs (tv : Timeval) : Int := tv.tv_sec * 1000000000 + tv.tv_usec * 1000

/-- A `timespec` as an absolute number of nanoseconds. -/
def timespecNs (ts : Timespec) : Int := ts.tv_sec * 1000000000 + ts.tv_nsec

/-- Statement helper: the event sequence `writeControlMessages` produces on
a batch, message by message — a latency warning for each message whose
elapsed time at examination exceeds the 2 ms staleness bound, a forwarding
event for every other message. -/
def expectedEvents (clock : Nat → Timeval) :
    Nat → List midi_message → List WorkerEvent
  | _, [] => []
  | i, m :: rest =>
    (if elapsedUs (clock i) m.timestamp > 2000 then
        WorkerEvent.latencyWarning (elapsedUs (clock i) m.timestamp)
      else
        WorkerEvent.forwarded m.control_index m.control_value)
    :: expectedEvents clock (i + 1) rest

/-- Statement helper: the driver payloads produced by a batch — one
single-packet list `[[0xB0, 0x00+index, value]]` per message within the
staleness bound, in batch order; stale messages contribute nothing. -/
def freshPayloads (clock : Nat → Timeval) :
    Nat → List midi_message → List (List (List Byte))
  | _, [] => []
  | i, m :: rest =>
    if elapsedUs (clock i) m.timestamp > 2000 then
      freshPayloads clock (i + 1) rest
    else
      [[0xB0, m.control_index, m.control_value]] :: freshPayloads clock (i + 1) rest

/-- Statement helper: the `(control, value)` pairs of the forwarding events
in an event sequence, in order. -/
def forwardedOf : List WorkerEvent → List (Nat × Nat)
  | [] => []
  | WorkerEvent.latencyWarning _ :: rest => forwardedOf rest
  | WorkerEvent.forwarded c v :: rest => (c, v) :: forwardedOf rest

theorem elapsedMs_eq_elapsedUs_div (now ts : Timeval) :
    elapsedMs now ts = (elapsedUs now ts : ℚ) / 1000 := by
  unfold elapsedMs elapsedUs
  push_cast
  ring

/-- The source's staleness test `elapsedTime > 2` (ms) is the same
condition as `elapsedUs > 2000` (µs). -/
theorem stale_iff (now ts : Timeval) :
    elapsedMs now ts > 2 ↔ elapsedUs now ts > 2000 := by
  rw [elapsedMs_eq_elapsedUs_div]
  rw [gt_iff_lt, lt_div_iff₀ (by norm_num : (0:ℚ) < 1000)]
  norm_num
  exact_mod_cast Iff.rfl

theorem writeControl_ok (st : OSStatus) (s : DeviceState) (c v : Nat)
    (hc : c < 120) (hv : v ≤ 127) (hbuf : s.midiPacketList = []) :
    writeControl st s c v =
      WriteControlResult.ok (DeviceState.mk [] (s.sent ++ [[[0xB0, c, v]]])) := by
  have hc' : (0x00 + c) % 256 = c := by omega
  have hc'' : c % 256 = c := by omega
  have hv' : v % 256 = v := by omega
  simp [writeControl, hc, hv, hbuf, MIDIPacketListAdd, midiPacketListBytes,
    midiPacketBytes, packetListSize, send, initPacketList, hc', hc'', hv']

theorem writeControlMessages_valid (clock : Nat → Timeval) (sts : Nat → OSStatus)
    (msgs : List midi_message) :
    ∀ (i : Nat) (s : DeviceState),
      (∀ m ∈ msgs, m.control_index < 120 ∧ m.control_value ≤ 127) →
      s.midiPacketList = [] →
      writeControlMessages clock sts i s msgs =
        some (DeviceState.mk [] (s.sent ++ freshPayloads clock i msgs),
              expectedEvents clock i msgs) := by
  induction msgs with
  | nil =>
    intro i s _ hbuf
    obtain ⟨pl, snt⟩ := s
    simp only [DeviceState.mk.injEq] at hbuf ⊢
    subst hbuf
    simp [writeControlMessages, freshPayloads, expectedEvents]
  | cons m rest ih =>
    intro i s hvalid hbuf
    have hrest : ∀ m' ∈ rest, m'.control_index < 120 ∧ m'.control_value ≤ 127 :=
      fun m' hm' => hvalid m' (List.mem_cons_of_mem _ hm')
    by_cases hstale : elapsedUs (clock i) m.timestamp > 2000
    · rw [writeControlMessages]
      simp only [hstale, if_pos]
      rw [ih (i + 1) s hrest hbuf]
      simp [expectedEvents, freshPayloads, hstale]
    · have h1 := (hvalid m (List.mem_cons_self _ _)).1
      have h2 := (hvalid m (List.mem_cons_self _ _)).2
      rw [writeControlMessages]
      simp only [hstale, if_neg, if_false]
      rw [writeControl_ok (sts i) s _ _ h1 h2 hbuf]
      dsimp only
      rw [ih (i + 1)
        (DeviceState.mk [] (s.sent ++ [[[0xB0, m.control_index, m.control_value]]]))
        hrest rfl]
      simp [expectedEvents, freshPayloads, hstale]

theorem expectedEvents_length (clock : Nat → Timeval) :
    ∀ (msgs : List midi_message) (i : Nat),
      (expectedEvents clock i msgs).length = msgs.length := by
  intro msgs
  induction msgs with
  | nil => intro i; rfl
  | cons m rest ih => intro i; simp [expectedEvents, ih (i + 1)]

theorem expectedEvents_getD (clock : Nat → Timeval) :
    ∀ (msgs : List midi_message) (i j : Nat), j < msgs.length →
      (expectedEvents clock i msgs).getD j default =
        (if elapsedUs (clock (i + j)) ((msgs.getD j default).timestamp) > 2000 then
          WorkerEvent.latencyWarning
            (elapsedUs (clock (i + j)) ((msgs.getD j default).timestamp))
        else
          WorkerEvent.forwarded (msgs.getD j default).control_index
            (msgs.getD j default).control_value) := by
  intro msgs
  induction msgs with
  | nil => intro i j hj; simp at hj
  | cons m rest ih =>
    intro i j hj
    cases j with
    | zero => simp [expectedEvents]
    | succ j' =>
      have hj' : j' < rest.length := by simpa using hj
      have heq : i + 1 + j' = i + (j' + 1) := by omega
      have hx := ih (i + 1) j' hj'
      rw [heq] at hx
      simpa [expectedEvents] using hx

theorem forwardedOf_expectedEvents_sublist (clock : Nat → Timeval) :
    ∀ (msgs : List midi_message) (i : Nat),
      List.Sublist (forwardedOf (expectedEvents clock i msgs))
        (msgs.map (fun m => (m.control_index, m.control_value))) := by
  intro msgs
  induction msgs with
  | nil => intro i; simp [expectedEvents, forwardedOf]
  | cons m rest ih =>
    intro i
    by_cases hstale : elapsedUs (clock i) m.timestamp > 2000
    · simp only [expectedEvents, hstale, if_pos, List.map_cons]
      exact List.Sublist.cons _ (by simpa [forwardedOf] using ih (i + 1))
    · simp only [expectedEvents, hstale, if_neg, if_false, List.map_cons]
      exact List.Sublist.cons₂ _ (by simpa [forwardedOf] using ih (i + 1))

theorem writeControlSeq_valid (sts : Nat → OSStatus) :
    ∀ (updates : List (Nat × Nat)) (i : Nat) (s : DeviceState),
      (∀ u ∈ updates, u.1 < 120 ∧ u.2 ≤ 127) →
      s.midiPacketList = [] →
      writeControlSeq sts i s updates =
        some (DeviceState.mk []
          (s.sent ++ updates.map (fun u => [[0xB0, u.1, u.2]]))) := by
  intro updates
  induction updates with
  | nil =>
    intro i s _ hbuf
    obtain ⟨pl, snt⟩ := s
    simp only [DeviceState.mk.injEq] at hbuf ⊢
    subst hbuf
    simp [writeControlSeq]
  | cons u rest ih =>
    intro i s hvalid hbuf
    obtain ⟨c, v⟩ := u
    have h1 := (hvalid (c, v) (List.mem_cons_self _ _)).1
    have h2 := (hvalid (c, v) (List.mem_cons_self _ _)).2
    rw [writeControlSeq, writeControl_ok (sts i) s c v h1 h2 hbuf]
    dsimp only
    rw [ih (i + 1) (DeviceState.mk [] (s.sent ++ [[[0xB0, c, v]]]))
      (fun u hu => hvalid u (List.mem_cons_of_mem _ hu)) rfl]
    simp

theorem drainLoop_eq (q : List midi_message) :
    ∀ (queueCopy : List midi_message), drainLoop q queueCopy = ([], queueCopy ++ q) := by
  induction q with
  | nil => intro queueCopy; simp [drainLoop]
  | cons m rest ih => intro queueCopy; rw [drainLoop, ih]; simp

theorem writeControl_status_irrel (st st' : OSStatus) (s : DeviceState)
    (c v : Nat) : writeControl st s c v = writeControl st' s c v := by
  unfold writeControl
  by_cases hc : c < 120
  · by_cases hv : v ≤ 127
    · rw [if_pos hc, if_pos hc, if_pos hv, if_pos hv]
      cases MIDIPacketListAdd s.midiPacketList packetListSize
          [(0xB0 + 0) % 256, (0x00 + c) % 256, v % 256] with
      | none => rfl
      | some pkts => dsimp only [send, initPacketList]
    · rw [if_pos hc, if_pos hc, if_neg hv, if_neg hv]
  · rw [if_neg hc, if_neg hc]

theorem writeControlMessages_status_irrel (clock : Nat → Timeval)
    (sts sts' : Nat → OSStatus) :
    ∀ (msgs : List midi_message) (i : Nat) (s : DeviceState),
      writeControlMessages clock sts i s msgs =
        writeControlMessages clock sts' i s msgs := by
  intro msgs
  induction msgs with
  | nil => intro i s; rfl
  | cons m rest ih =>
    intro i s
    rw [writeControlMessages, writeControlMessages]
    by_cases hstale : elapsedUs (clock i) m.timestamp > 2000
    · simp only [hstale, if_pos]
      rw [ih (i + 1) s]
    · simp only [hstale, if_neg, if_false]
      rw [writeControl_status_irrel (sts i) (sts' i) s m.control_index m.control_value]
      cases writeControl (sts' i) s m.control_index m.control_value with
      | assertionFailure => rfl
      | fatalOverrun => rfl
      | ok s' =>
        dsimp only
        rw [ih (i + 1) s']

/-- Claim C1: for every update the worker examines in `writeControlMessages`,
if the elapsed time between its enqueue timestamp and the moment of
examination exceeds the staleness bound of 2 ms (2000 µs, cf. `stale_iff`),
the worker drops it — the event it records is a latency warning — and its
payload is never submitted to the endpoint (the driver submissions are
exactly the within-bound messages' payloads, `freshPayloads`); every update
at or under the bound is forwarded to the endpoint send path. -/
theorem c1_staleness_bound (clock : Nat → Timeval) (sts : Nat → OSStatus)
    (msgs : List midi_message) (s : DeviceState)
    (hvalid : ∀ m ∈ msgs, m.control_index < 120 ∧ m.control_value ≤ 127)
    (hbuf : s.midiPacketList = []) :
    ∃ s' evs, writeControlMessages clock sts 0 s msgs = some (s', evs)
      ∧ evs.length = msgs.length
      ∧ (∀ j, j < msgs.length →
          (elapsedUs (clock j) ((msgs.getD j default).timestamp) > 2000 →
            evs.getD j default =
              WorkerEvent.latencyWarning
                (elapsedUs (clock j) ((msgs.getD j default).timestamp)))
          ∧ (elapsedUs (clock j) ((msgs.getD j default).timestamp) ≤ 2000 →
            evs.getD j default =
              WorkerEvent.forwarded (msgs.getD j default).control_index
                (msgs.getD j default).control_value))
      ∧ s'.sent = s.sent ++ freshPayloads clock 0 msgs := by
  refine ⟨_, _, writeControlMessages_valid clock sts msgs 0 s hvalid hbuf,
    expectedEvents_length clock msgs 0, ?_, rfl⟩
  intro j hj
  have h := expectedEvents_getD clock msgs 0 j hj
  rw [Nat.zero_add] at h
  constructor
  · intro hst
    rw [h, if_pos hst]
  · intro hfr
    rw [h, if_neg (by omega)]

theorem c1_staleness_bound_witness :
    (∀ m ∈ [midi_message.mk 5 100 (Timeval.mk 0 0),
            midi_message.mk 6 7 (Timeval.mk 0 1500)],
        m.control_index < 120 ∧ m.control_value ≤ 127)
    ∧ (DeviceState.mk [] []).midiPacketList = []
    ∧ (∃ s' evs,
        writeControlMessages (fun _ => Timeval.mk 0 2500) (fun _ => 0) 0
            (DeviceState.mk [] [])
            [midi_message.mk 5 100 (Timeval.mk 0 0),
             midi_message.mk 6 7 (Timeval.mk 0 1500)] = some (s', evs)
        ∧ evs.length = [midi_message.mk 5 100 (Timeval.mk 0 0),
             midi_message.mk 6 7 (Timeval.mk 0 1500)].length
        ∧ (∀ j, j < [midi_message.mk 5 100 (Timeval.mk 0 0),
             midi_message.mk 6 7 (Timeval.mk 0 1500)].length →
            (elapsedUs ((fun _ => Timeval.mk 0 2500) j)
                (([midi_message.mk 5 100 (Timeval.mk 0 0),
                   midi_message.mk 6 7 (Timeval.mk 0 1500)].getD j default).timestamp)
                > 2000 →
              evs.getD j default =
                WorkerEvent.latencyWarning
                  (elapsedUs ((fun _ => Timeval.mk 0 2500) j)
                    (([midi_message.mk 5 100 (Timeval.mk 0 0),
                       midi_message.mk 6 7 (Timeval.mk 0 1500)].getD j
                        default).timestamp)))
            ∧ (elapsedUs ((fun _ => Timeval.mk 0 2500) j)
                (([midi_message.mk 5 100 (Timeval.mk 0 0),
                   midi_message.mk 6 7 (Timeval.mk 0 1500)].getD j default).timestamp)
                ≤ 2000 →
              evs.getD j default =
                WorkerEvent.forwarded
                  ([midi_message.mk 5 100 (Timeval.mk 0 0),
                    midi_message.mk 6 7 (Timeval.mk 0 1500)].getD j
                      default).control_index
                  ([midi_message.mk 5 100 (Timeval.mk 0 0),
                    midi_message.mk 6 7 (Timeval.mk 0 1500)].getD j
                      default).control_value))
        ∧ s'.sent = (DeviceState.mk ([] : List (List Byte)) []).sent ++
            freshPayloads (fun _ => Timeval.mk 0 2500) 0
              [midi_message.mk 5 100 (Timeval.mk 0 0),
               midi_message.mk 6 7 (Timeval.mk 0 1500)]) :=
  ⟨by decide, rfl,
    c1_staleness_bound (fun _ => Timeval.mk 0 2500) (fun _ => 0)
      [midi_message.mk 5 100 (Timeval.mk 0 0),
       midi_message.mk 6 7 (Timeval.mk 0 1500)]
      (DeviceState.mk [] []) (by decide) rfl⟩

/-- Claim C2 is refuted by the destructor's step order: `Device::~Device`
disposes the endpoint, the client and the packet buffer as its first three
steps, issues `pthread_cancel` only afterwards, and contains no join or any
other wait for the worker thread anywhere — so shared resources are
disposed while the worker thread may still be running, the opposite of the
claimed order. -/
theorem c2_destructor_disposes_before_cancel :
    destructorSteps.take 3 =
      [DtorStep.disposeEndpoint, DtorStep.disposeClient, DtorStep.freePacketList]
    ∧ DtorStep.cancelWorker ∉ destructorSteps.take 3
    ∧ destructorSteps.getD 3 DtorStep.joinWorker = DtorStep.cancelWorker
    ∧ DtorStep.joinWorker ∉ destructorSteps := by decide

/-- Claim C3 is refuted on the worker side: in
`Device::messageSendingThreadEntry`, the condition-variable wait happens
with no prior mutex acquisition — the only actions before the
`pthread_cond_timedwait` are the cancellation test and the clock read, and
no `pthread_mutex_lock` occurs anywhere in the iteration (undefined
behavior under POSIX, which requires the caller to hold the mutex) — even
though the producer `Device::addControlMessage` does mutate the queue
under the lock. -/
theorem c3_wait_without_lock :
    workerIterationActions.takeWhile (fun a => a != SyncAction.condTimedWait) =
      [SyncAction.testCancel, SyncAction.readClock]
    ∧ SyncAction.mutexLock ∉ workerIterationActions
    ∧ SyncAction.condTimedWait ∈ workerIterationActions
    ∧ addControlMessageActions =
        [SyncAction.mutexLock, SyncAction.pushQueue, SyncAction.mutexUnlock,
         SyncAction.condSignal] := by decide

/-- Claim C4 counterexample: with the driver returning the non-success
status -50 for every send, forwarding the fresh update (5, 100) records no
warning of any kind — the event log holds only the forwarding event — and
the run's result is identical to one in which every send succeeds
(status 0): the non-success status never reaches the worker loop and no
warning is logged, contradicting the claim that the status is surfaced and
a warning logged. -/
theorem c4_counterexample :
    writeControlMessages (fun _ => Timeval.mk 0 0) (fun _ => -50) 0
        (DeviceState.mk [] []) [midi_message.mk 5 100 (Timeval.mk 0 0)] =
      some (DeviceState.mk [] [[[0xB0, 0x05, 100]]],
        [WorkerEvent.forwarded 5 100])
    ∧ writeControlMessages (fun _ => Timeval.mk 0 0) (fun _ => -50) 0
        (DeviceState.mk [] []) [midi_message.mk 5 100 (Timeval.mk 0 0)] =
      writeControlMessages (fun _ => Timeval.mk 0 0) (fun _ => 0) 0
        (DeviceState.mk [] []) [midi_message.mk 5 100 (Timeval.mk 0 0)] := by
  constructor
  · decide
  · decide

/-- Claim C4 amended: a non-success status from the endpoint's send does
not stop the worker — the loop continues to the next update — but the
status is not surfaced to the worker and no warning is logged:
`Device::send` returns the driver's status to its caller, `writeControl`
discards it, and the worker's entire behavior (final state and event log)
is independent of the driver statuses; in particular a two-update run
whose first send fails still forwards both updates. -/
theorem c4_amended (st : OSStatus) (s : DeviceState) (pkt : List (List Byte))
    (clock : Nat → Timeval) (sts sts' : Nat → OSStatus) (i : Nat)
    (msgs : List midi_message) :
    (send st s pkt).1 = st
    ∧ writeControlMessages clock sts i s msgs =
        writeControlMessages clock sts' i s msgs
    ∧ writeControlMessages (fun _ => Timeval.mk 0 0)
        (fun j => if j = 0 then -50 else 0) 0 (DeviceState.mk [] [])
        [midi_message.mk 5 100 (Timeval.mk 0 0),
         midi_message.mk 6 7 (Timeval.mk 0 0)] =
      some (DeviceState.mk [] [[[0xB0, 0x05, 100]], [[0xB0, 0x06, 7]]],
        [WorkerEvent.forwarded 5 100, WorkerEvent.forwarded 6 7]) :=
  ⟨rfl, writeControlMessages_status_irrel clock sts sts' msgs i s, by decide⟩

/-- Claim C5: after every call to `Device::send` the member packet buffer
is re-initialized to an empty, writable state regardless of the driver
status, and any number of consecutive `writeControl` calls on in-range
single 3-byte updates starting from an empty buffer all succeed — the
encode never fails with a buffer overrun caused by leftover state from
prior sends — leaving the buffer empty again after each one. -/
theorem c5_buffer_reset (st : OSStatus) (s0 : DeviceState)
    (pkt : List (List Byte)) (sts : Nat → OSStatus) (i : Nat)
    (s : DeviceState) (updates : List (Nat × Nat))
    (hvalid : ∀ u ∈ updates, u.1 < 120 ∧ u.2 ≤ 127)
    (hbuf : s.midiPacketList = []) :
    ((send st s0 pkt).2.midiPacketList = [])
    ∧ writeControlSeq sts i s updates =
        some (DeviceState.mk []
          (s.sent ++ updates.map (fun u => [[0xB0, u.1, u.2]]))) :=
  ⟨rfl, writeControlSeq_valid sts updates i s hvalid hbuf⟩

theorem c5_buffer_reset_witness :
    (∀ u ∈ [((5 : Nat), (100 : Nat)), (5, 64), (119, 127), (0, 0)],
        u.1 < 120 ∧ u.2 ≤ 127)
    ∧ (DeviceState.mk [] []).midiPacketList = []
    ∧ ((send 0 (DeviceState.mk [] []) []).2.midiPacketList = []
      ∧ writeControlSeq (fun _ => 0) 0 (DeviceState.mk [] [])
          [((5 : Nat), (100 : Nat)), (5, 64), (119, 127), (0, 0)] =
        some (DeviceState.mk []
          ((DeviceState.mk ([] : List (List Byte)) []).sent ++
            [((5 : Nat), (100 : Nat)), (5, 64), (119, 127), (0, 0)].map
              (fun u => [[0xB0, u.1, u.2]])))) :=
  ⟨by decide, rfl,
    c5_buffer_reset 0 (DeviceState.mk [] []) [] (fun _ => 0) 0
      (DeviceState.mk [] []) [(5, 100), (5, 64), (119, 127), (0, 0)]
      (by decide) rfl⟩

/-- Claim C6: for every forwarded update with in-range control index `c`
and value `v`, the payload encoded and submitted to the driver is exactly
the 3 bytes `[0xB0, 0x00 + c, v]`, submitted as its own driver call (one
packet list holding that single packet, appended as one entry to the send
log); and the two-update scenario — forwarding (5, 100) then (5, 64)
within the staleness bound — produces exactly the driver payloads
`[0xB0, 5, 100]` then `[0xB0, 5, 64]` in that order. -/
theorem c6_wire_payload (st : OSStatus) (s : DeviceState) (c v : Nat)
    (hc : c < 120) (hv : v ≤ 127) (hbuf : s.midiPacketList = []) :
    writeControl st s c v =
      WriteControlResult.ok
        (DeviceState.mk [] (s.sent ++ [[[0xB0, 0x00 + c, v]]]))
    ∧ writeControlMessages (fun _ => Timeval.mk 0 0) (fun _ => 0) 0
        (DeviceState.mk [] [])
        [midi_message.mk 5 100 (Timeval.mk 0 0),
         midi_message.mk 5 64 (Timeval.mk 0 0)] =
      some (DeviceState.mk [] [[[0xB0, 0x05, 100]], [[0xB0, 0x05, 64]]],
        [WorkerEvent.forwarded 5 100, WorkerEvent.forwarded 5 64]) := by
  constructor
  · rw [writeControl_ok st s c v hc hv hbuf]
    simp
  · decide

theorem c6_wire_payload_witness :
    5 < 120 ∧ 100 ≤ 127 ∧ (DeviceState.mk [] []).midiPacketList = []
    ∧ (writeControl 0 (DeviceState.mk [] []) 5 100 =
        WriteControlResult.ok
          (DeviceState.mk []
            ((DeviceState.mk ([] : List (List Byte)) []).sent ++
              [[[0xB0, 0x00 + 5, 100]]]))
      ∧ writeControlMessages (fun _ => Timeval.mk 0 0) (fun _ => 0) 0
          (DeviceState.mk [] [])
          [midi_message.mk 5 100 (Timeval.mk 0 0),
           midi_message.mk 5 64 (Timeval.mk 0 0)] =
        some (DeviceState.mk [] [[[0xB0, 0x05, 100]], [[0xB0, 0x05, 64]]],
          [WorkerEvent.forwarded 5 100, WorkerEvent.forwarded 5 64])) :=
  ⟨by decide, by decide, rfl,
    c6_wire_payload 0 (DeviceState.mk [] []) 5 100 (by decide) (by decide) rfl⟩

/-- Claim C7 counterexample: entering the wait at
`tv = (100 s, 500000 µs)`, the absolute deadline computed at Device.cpp
lines 138-140 is `(102 s, 0 ns)`, which lies 1.5 × 10⁹ ns — not
2 × 10⁹ ns — after the moment the wait is entered: the deadline is not
exactly 2 seconds after entering the wait, because `tv_nsec` is set to 0,
discarding the current microseconds. -/
theorem c7_counterexample :
    timespecNs (timedWaitDeadline (Timeval.mk 100 500000))
        - timevalNs (Timeval.mk 100 500000) = 1500000000
    ∧ timespecNs (timedWaitDeadline (Timeval.mk 100 500000))
        - timevalNs (Timeval.mk 100 500000) ≠ 2000000000 := by decide

/-- Claim C7 amended: the absolute deadline passed to the timed wait is
`tv_sec + 2` seconds with the nanosecond field zeroed, so the wait
duration is strictly more than 1 s and at most 2 s — exactly 2 s only when
the wait is entered at `tv_usec = 0`; an idle worker therefore still wakes
from the wait, and can observe a cancellation request, within one
2-second timeout period of entering the wait. -/
theorem c7_deadline_truncated (tv : Timeval) (h0 : 0 ≤ tv.tv_usec)
    (h1 : tv.tv_usec < 1000000) :
    1000000000 < timespecNs (timedWaitDeadline tv) - timevalNs tv
    ∧ timespecNs (timedWaitDeadline tv) - timevalNs tv ≤ 2000000000
    ∧ (timespecNs (timedWaitDeadline tv) - timevalNs tv = 2000000000
        ↔ tv.tv_usec = 0) := by
  obtain ⟨sec, usec⟩ := tv
  simp only [timespecNs, timedWaitDeadline, timevalNs] at *
  constructor
  · omega
  · constructor
    · omega
    · omega

theorem c7_deadline_truncated_witness :
    (0 : Int) ≤ (Timeval.mk 7 250000).tv_usec
    ∧ (Timeval.mk 7 250000).tv_usec < 1000000
    ∧ (1000000000 < timespecNs (timedWaitDeadline (Timeval.mk 7 250000))
          - timevalNs (Timeval.mk 7 250000)
      ∧ timespecNs (timedWaitDeadline (Timeval.mk 7 250000))
          - timevalNs (Timeval.mk 7 250000) ≤ 2000000000
      ∧ (timespecNs (timedWaitDeadline (Timeval.mk 7 250000))
            - timevalNs (Timeval.mk 7 250000) = 2000000000
          ↔ (Timeval.mk 7 250000).tv_usec = 0)) :=
  ⟨by decide, by decide,
    c7_deadline_truncated (Timeval.mk 7 250000) (by decide) (by decide)⟩

/-- Claim C8: the worker's drain loop removes every currently queued
update into the thread-local batch, preserving insertion order, and leaves
the shared queue empty (an empty queue yields an empty batch and an
unchanged, still-empty queue); and the `(control, value)` sequence the
forwarding pass hands to the endpoint is a sublist — a subsequence in the
same relative order — of the batch's `(control, value)` sequence, drops
excluded. -/
theorem c8_drain_order (q : List midi_message) (clock : Nat → Timeval)
    (sts : Nat → OSStatus) (msgs : List midi_message) (s : DeviceState)
    (hvalid : ∀ m ∈ msgs, m.control_index < 120 ∧ m.control_value ≤ 127)
    (hbuf : s.midiPacketList = []) :
    drainLoop q [] = ([], q)
    ∧ drainLoop ([] : List midi_message) [] = ([], [])
    ∧ ∃ s' evs, writeControlMessages clock sts 0 s msgs = some (s', evs)
        ∧ List.Sublist (forwardedOf evs)
            (msgs.map (fun m => (m.control_index, m.control_value))) := by
  refine ⟨by simpa using drainLoop_eq q [], rfl,
    _, _, writeControlMessages_valid clock sts msgs 0 s hvalid hbuf, ?_⟩
  exact forwardedOf_expectedEvents_sublist clock msgs 0

theorem c8_drain_order_witness :
    (∀ m ∈ [midi_message.mk 5 100 (Timeval.mk 0 0),
            midi_message.mk 6 7 (Timeval.mk 0 1500)],
        m.control_index < 120 ∧ m.control_value ≤ 127)
    ∧ (DeviceState.mk [] []).midiPacketList = []
    ∧ (drainLoop [midi_message.mk 9 9 (Timeval.mk 3 4)] [] =
        ([], [midi_message.mk 9 9 (Timeval.mk 3 4)])
      ∧ drainLoop ([] : List midi_message) [] = ([], [])
      ∧ ∃ s' evs,
          writeControlMessages (fun _ => Timeval.mk 0 2500) (fun _ => 0) 0
              (DeviceState.mk [] [])
              [midi_message.mk 5 100 (Timeval.mk 0 0),
               midi_message.mk 6 7 (Timeval.mk 0 1500)] = some (s', evs)
          ∧ List.Sublist (forwardedOf evs)
              ([midi_message.mk 5 100 (Timeval.mk 0 0),
                midi_message.mk 6 7 (Timeval.mk 0 1500)].map
                (fun m => (m.control_index, m.control_value)))) :=
  ⟨by decide, rfl,
    c8_drain_order [midi_message.mk 9 9 (Timeval.mk 3 4)]
      (fun _ => Timeval.mk 0 2500) (fun _ => 0)
      [midi_message.mk 5 100 (Timeval.mk 0 0),
       midi_message.mk 6 7 (Timeval.mk 0 1500)]
      (DeviceState.mk [] []) (by decide) rfl⟩

/-- Claim C9: `Device::writeControl` treats `index < 120` and
`value < 128` as assertion-checked preconditions: the call aborts with an
assertion failure exactly when the pair is out of range (never reporting a
recoverable error), and for every in-range pair the assertions pass and
the call proceeds to the encode step (its outcome is the encode's: either
the fatal-overrun path or normal completion). Index and value are natural
numbers, so `0 ≤ index` and `0 ≤ value` hold by type. -/
theorem writeControl_in_range (st : OSStatus) (s : DeviceState) (c v : Nat)
    (hc : c < 120) (hv : v ≤ 127) :
    writeControl st s c v = WriteControlResult.fatalOverrun
    ∨ ∃ s', writeControl st s c v = WriteControlResult.ok s' := by
  rw [writeControl, if_pos hc, if_pos hv]
  dsimp only
  split
  · exact Or.inl rfl
  · exact Or.inr ⟨_, rfl⟩

theorem c9_range_assertions (st : OSStatus) (s : DeviceState) (c v : Nat) :
    (writeControl st s c v = WriteControlResult.assertionFailure
      ↔ ¬(c < 120 ∧ v ≤ 127))
    ∧ (c < 120 → v ≤ 127 →
        writeControl st s c v = WriteControlResult.fatalOverrun
        ∨ ∃ s', writeControl st s c v = WriteControlResult.ok s') := by
  by_cases hc : c < 120
  · by_cases hv : v ≤ 127
    · have hnot := writeControl_in_range st s c v hc hv
      constructor
      · constructor
        · intro h
          rcases hnot with h' | ⟨s', h'⟩
          · rw [h] at h'
            exact WriteControlResult.noConfusion h'
          · rw [h] at h'
            exact WriteControlResult.noConfusion h'
        · intro hn
          exact absurd ⟨hc, hv⟩ hn
      · intro _ _
        exact hnot
    · have hres : writeControl st s c v = WriteControlResult.assertionFailure := by
        rw [writeControl, if_pos hc, if_neg hv]
      exact ⟨⟨fun _ ⟨_, hv'⟩ => hv hv', fun _ => hres⟩, fun _ hv' => absurd hv' hv⟩
  · have hres : writeControl st s c v = WriteControlResult.assertionFailure := by
      rw [writeControl, if_neg hc]
    exact ⟨⟨fun _ ⟨hc', _⟩ => hc hc', fun _ => hres⟩, fun hc' => absurd hc' hc⟩

theorem c9_range_assertions_witness :
    (writeControl 0 (DeviceState.mk [] []) 200 7 =
        WriteControlResult.assertionFailure)
    ∧ (writeControl 0 (DeviceState.mk [] []) 5 200 =
        WriteControlResult.assertionFailure)
    ∧ (writeControl 0 (DeviceState.mk [] []) 5 100 =
          WriteControlResult.fatalOverrun
        ∨ ∃ s', writeControl 0 (DeviceState.mk [] []) 5 100 =
          WriteControlResult.ok s') :=
  ⟨(c9_range_assertions 0 (DeviceState.mk [] []) 200 7).1.mpr (by decide),
    (c9_range_assertions 0 (DeviceState.mk [] []) 5 200).1.mpr (by decide),
    (c9_range_assertions 0 (DeviceState.mk [] []) 5 100).2 (by decide) (by decide)⟩

/-- Claim C10: every `Device::send` call re-initializes the member packet
buffer no matter which packet list is passed: afterwards the member buffer
is empty and the payload submitted to the driver is exactly the argument
list; in particular main's `sendNote`, which passes a caller-local
two-packet list, leaves the member buffer empty and submits only its own
note-on/note-off packets — so any update already encoded into the member
buffer but not yet submitted is silently discarded by such an external
send. -/
theorem c10_external_send_resets (st : OSStatus) (s : DeviceState)
    (pkt : List (List Byte)) (rnd : Nat) :
    (send st s pkt).2.midiPacketList = []
    ∧ (send st s pkt).2.sent = s.sent ++ [pkt]
    ∧ (sendNote st rnd s).midiPacketList = []
    ∧ (sendNote st rnd s).sent =
        s.sent ++ [[[0x90, rnd % 40 + 25, 64], [0x90, rnd % 40 + 25, 0]]] := by
  refine ⟨rfl, rfl, ?_, ?_⟩
  · simp [sendNote, MIDIPacketListAdd, midiPacketListBytes, midiPacketBytes,
      send, initPacketList]
  · simp [sendNote, MIDIPacketListAdd, midiPacketListBytes, midiPacketBytes,
      send, initPacketList]

end LeapMIDIX
